import Mathlib

/-! Shallow embedding of the LegalyzeAI backend: the guardrail checks
(src/guardrails.py), the output-normalization steps and the two streaming
pipelines (src/main.py, src/processing_pipeline.py), the upload validation
of the analyze endpoint (src/main.py), and the in-memory session store.
Nondeterministic collaborator results (the LLM-backed agent runs) are
modelled as explicit environment inputs; each agent run is an
`Except`-valued outcome.  Timestamps and the numeric progress/details
extras of the streamed status payloads are elided (they are
nondeterministic wall-clock data and no claim depends on them). -/

namespace LegalyzeAI

/-- Python `s.strip()`: drop leading and trailing whitespace. -/
def pyStrip (s : String) : String :=
  String.mk (((s.toList.dropWhile Char.isWhitespace).reverse.dropWhile
    Char.isWhitespace).reverse)

/-- Python `s.lower()`. -/
def pyLower (s : String) : String :=
  String.mk (s.toList.map Char.toLower)

/-- Python slicing `s[:n]`. -/
def pyTake (s : String) (n : Nat) : String :=
  String.mk (s.toList.take n)

/-- Count the maximal non-whitespace runs of a character list; the flag
records whether the previous character was inside a word. -/
def countWords : List Char → Bool → Nat
  | [], _ => 0
  | c :: cs, inWord =>
    if Char.isWhitespace c then countWords cs false
    else (if inWord then 0 else 1) + countWords cs true

/-- Python `len(s.split())`: split on whitespace runs, drop empties, count. -/
def pyWordCount (s : String) : Nat :=
  countWords s.toList false

/-- Python `needle in hay` substring test on strings. -/
def containsSubstr (hay needle : String) : Bool :=
  (List.range (hay.toList.length + 1)).any
    (fun i => needle.toList.isPrefixOf (hay.toList.drop i))

/-- Helper for `pyTitle`: uppercase an alphabetic character that follows a
non-alphabetic one, lowercase the rest, as Python `str.title` does. -/
def pyTitleGo : Bool → List Char → List Char
  | _, [] => []
  | prevAlpha, c :: cs =>
    (if c.isAlpha then (if prevAlpha then c.toLower else c.toUpper) else c)
      :: pyTitleGo c.isAlpha cs

/-- Python `str.title`. -/
def pyTitle (s : String) : String :=
  String.mk (pyTitleGo false s.toList)

/-- Python `str(True)` / `str(False)`. -/
def pyStrBool : Bool → String
  | true => "True"
  | false => "False"

/-- Python `repr` of a plain string (no embedded quotes handled). -/
def pyReprStr (s : String) : String := "\x27" ++ s ++ "\x27"

/-- Python `repr` of a list of strings. -/
def pyReprList (l : List String) : String :=
  "[" ++ String.intercalate ", " (l.map pyReprStr) ++ "]"

/-- Output schema of the sensitive-information check agent
(src/pydantic_models.py, `SensitiveCheckOutput`). -/
structure SensitiveCheckOutput where
  contains_sensitive_info : Bool
  reasoning : String
  flagged_content_types : List String
deriving DecidableEq

/-- Python `str()` of a pydantic `SensitiveCheckOutput` instance: the
space-separated `field=repr(value)` rendering that the enhanced
pipeline embeds in its input-tripwire error payload. -/
def strSensitiveCheckOutput (o : SensitiveCheckOutput) : String :=
  "contains_sensitive_info=" ++ pyStrBool o.contains_sensitive_info ++
  " reasoning=" ++ pyReprStr o.reasoning ++
  " flagged_content_types=" ++ pyReprList o.flagged_content_types

/-- Fully-shaped risk item (src/pydantic_models.py, `RiskItem`). -/
structure RiskItem where
  description : String
  level : String
  category : String
  recommendation : String
  clause_reference : String
deriving DecidableEq

/-- Typed final analysis output (src/pydantic_models.py, `FinalOutput`).
Confidence is modelled as a rational. -/
structure FinalOutput where
  summary : String
  risks : List RiskItem
  verdict : String
  disclaimer : String
  confidence_score : ℚ
  processed_at : String
deriving DecidableEq

/-- Friendly message output (src/pydantic_models.py, `FriendlyMessage`). -/
structure FriendlyMessage where
  message : String
  tone : String
deriving DecidableEq

/-- Routing decision of the main agent (src/pydantic_models.py,
`AgentDecision`). -/
structure AgentDecision where
  action : String
  reasoning : String
  confidence_score : ℚ
deriving DecidableEq

/-- Tripwire of `final_output_validation_guardrail` (src/guardrails.py,
lines 60-93).  Returns `tripwire_triggered`.  The Python check
`output.risks is not None and isinstance(output.risks, list)` is always
true for the typed `risks : List RiskItem`, so `has_risks` is `true`. -/
def final_output_validation_tripwire (output : FinalOutput) : Bool :=
  let has_summary := (output.summary != "") && decide (10 < (pyStrip output.summary).length)
  let has_risks := true
  let has_verdict := (output.verdict != "") && decide (5 < (pyStrip output.verdict).length)
  let has_disclaimer := (output.disclaimer != "") && decide (10 < (pyStrip output.disclaimer).length)
  let is_valid := has_summary && has_risks && has_verdict && has_disclaimer
  !is_valid

/-- Refusal phrases scanned by `friendly_message_validation_guardrail`
(src/guardrails.py, line 111). -/
def refusalPhrases : List String :=
  ["i cannot", "i can\x27t", "sorry, i cannot", "i\x27m unable to"]

/-- Tripwire of `friendly_message_validation_guardrail`
(src/guardrails.py, lines 96-132). -/
def friendly_message_validation_tripwire (output : FriendlyMessage) : Bool :=
  let has_message := (output.message != "") && decide (5 < (pyStrip output.message).length)
  let is_not_too_long := decide (output.message.length < 2000)
  let contains_inappropriate :=
    refusalPhrases.any (fun word => containsSubstr (pyLower output.message) word)
  let is_valid := has_message && is_not_too_long && !contains_inappropriate
  !is_valid

/-- Dict view `rd` of one raw risk entry as the normalization loops read it:
each field is `rd.get(key)`, absent keys are `none` (src/main.py lines
283-296, src/processing_pipeline.py lines 398-411). -/
structure RiskEntry where
  description : Option String
  level : Option String
  category : Option String
  recommendation : Option String
  clause_reference : Option String
deriving DecidableEq

/-- The empty dict `rd = {}` that the per-risk `except` branch substitutes
when a raw risk is not coercible to a dict. -/
def blankRiskEntry : RiskEntry :=
  { description := none, level := none, category := none
    recommendation := none, clause_reference := none }

/-- Per-risk coercion `rd = r.model_dump() / dict(r)` with the
`except: rd = r if isinstance(r, dict) else {}` fallback: a failed
coercion yields the empty dict. -/
def coerceRisk (r : Option RiskEntry) : RiskEntry := r.getD blankRiskEntry

/-- Normalized risk shape built by the demo pipeline (src/main.py lines
289-296): no `clause_reference` key is emitted there. -/
structure NormRiskDemo where
  description : String
  level : String
  category : String
  recommendation : String
deriving DecidableEq

/-- Normalized risk shape built by the enhanced pipeline
(src/processing_pipeline.py lines 404-410). -/
structure NormRiskEnh where
  description : String
  level : String
  category : String
  recommendation : String
  clause_reference : String
deriving DecidableEq

/-- Demo-pipeline risk normalization (src/main.py lines 289-296):
`str(rd.get("description", ""))`, `str(rd.get("level", "unknown")).lower()`,
defaults to empty strings for the other keys. -/
def normalizeRiskDemo (rd : RiskEntry) : NormRiskDemo :=
  { description := rd.description.getD ""
    level := pyLower (rd.level.getD "unknown")
    category := rd.category.getD ""
    recommendation := rd.recommendation.getD "" }

/-- Enhanced-pipeline risk normalization (src/processing_pipeline.py lines
404-410 and src/main.py lines 543-549). -/
def normalizeRiskEnhanced (rd : RiskEntry) : NormRiskEnh :=
  { description := rd.description.getD ""
    level := pyLower (rd.level.getD "unknown")
    category := rd.category.getD ""
    recommendation := rd.recommendation.getD ""
    clause_reference := rd.clause_reference.getD "" }

/-- The `analysis_dict` obtained from the raw analysis result: keys read by
the downstream code, with risks still in raw (duck-typed) shape. -/
structure AnalysisDict where
  summary : String
  risks : List (Option RiskEntry)
  verdict : String
  disclaimer : String
  confidence_score : ℚ
deriving DecidableEq

/-- The `final_structured_data` record the demo pipeline streams
(src/main.py lines 299-320). -/
structure StructuredData where
  summary : String
  risks : List NormRiskDemo
  verdict : String
  disclaimer : String
  risk_count : Nat
  confidence_score : ℚ
deriving DecidableEq

/-- The fixed degraded-mode `final_structured_data` substituted by the demo
pipeline when coercing the raw analysis result raises (src/main.py lines
308-320). -/
def degradedStructuredData : StructuredData :=
  { summary := "Document analysis completed but some details could not be extracted."
    risks := []
    verdict := "Please review the document manually for potential issues."
    disclaimer := "This analysis is for informational purposes only and does not constitute legal advice."
    risk_count := 0
    confidence_score := 1/2 }

/-- Demo-pipeline conversion of the raw analysis result into
`final_structured_data` (src/main.py lines 264-320): the whole block is
wrapped in try/except, so a coercion failure (`Except.error`) yields the
fixed degraded record and never escapes. -/
def demoStructuredData : Except Unit AnalysisDict → StructuredData
  | .ok d =>
    let normalized_risks := d.risks.map (fun r => normalizeRiskDemo (coerceRisk r))
    { summary := d.summary
      risks := normalized_risks
      verdict := d.verdict
      disclaimer := d.disclaimer
      risk_count := normalized_risks.length
      confidence_score := d.confidence_score }
  | .error _ => degradedStructuredData

/-- Processing-time estimate (src/main.py lines 117-126 and
src/processing_pipeline.py lines 19-28). -/
def estimate_processing_time (text_length : Nat) : Nat :=
  if text_length < 1000 then 15
  else if text_length < 5000 then 30
  else if text_length < 10000 then 45
  else 60

/-- Page estimate from `get_document_insights` (src/main.py line 133). -/
def estimatedPages (text : String) : Nat :=
  max 1 (pyWordCount text / 250)

/-- One record of the in-memory `analysis_sessions` store (src/main.py
lines 421-426): status, filename, start marker, insights, and the final
result once completed.  The stored values are summarized as strings. -/
structure SessionRecord where
  status : String
  filename : String
  started_at : String
  insights : List (String × Nat)
  result : Option String
deriving DecidableEq

/-- The process-wide session map `analysis_sessions`. -/
abbrev SessionStore := List (String × SessionRecord)

/-- Handler of `GET /session/{session_id}` (src/main.py lines 839-845):
404 when absent, otherwise the record; the store is read, never written. -/
def get_session_status (store : SessionStore) (session_id : String) :
    Except Nat SessionRecord × SessionStore :=
  match store.lookup session_id with
  | none => (.error 404, store)
  | some r => (.ok r, store)

/-- Handler of `DELETE /session/{session_id}` (src/main.py lines 848-855). -/
def delete_session (store : SessionStore) (session_id : String) :
    Except Nat String × SessionStore :=
  if (store.lookup session_id).isSome then
    ("Session deleted successfully" |> Except.ok,
     store.filter (fun kv => kv.1 != session_id))
  else (.error 404, store)

/-- Exceptions that a `Runner.run` call can raise into the pipelines:
the two guardrail tripwires and any other exception (invocation failure,
malformed output, and so on). -/
inductive PyExc
  | inputTripwire
  | outputTripwire
  | other
deriving DecidableEq

/-- The capabilities (agents) the pipelines can invoke. -/
inductive AgentName
  | sensitiveChecker
  | mainAgent
  | analysisAgent
  | casualChatAgent
  | friendlyAgent
deriving DecidableEq

/-- One streamed status payload: the `step`/`status`/`message` triple of
`create_status_message`. -/
structure Event where
  step : String
  status : String
  message : String
deriving DecidableEq

/-- The `final_result` object of the enhanced pipeline, in its three
shapes (`legal_analysis`, `casual_response`, `error`).  The error shape
optionally carries a `details` string (only the input-tripwire handler
sets it).  Word counts and timestamps of `document_info` are elided. -/
inductive FinalResult
  | legal (filename summary : String) (risks : List NormRiskEnh)
      (verdict disclaimer friendly_message session_id : String)
  | casual (message session_id : String)
  | error (message : String) (details : Option String) (session_id : String)
deriving DecidableEq

/-- Terminal payload of a stream, in the shapes the two pipelines emit. -/
inductive TerminalPayload
  | structuredData (sd : StructuredData)
  | finalMessage (m : String)
  | finalResult (fr : FinalResult)
deriving DecidableEq

/-- One step of a pipeline execution: an emitted status event, a
capability invocation, a session-store write, a terminal payload, or the
end-of-stream sentinel `data: [DONE]\n\n`. -/
inductive Action
  | emit (e : Event)
  | invoke (a : AgentName)
  | sessionPut (session_id status : String)
  | terminal (p : TerminalPayload)
  | done
deriving DecidableEq

/-- What actually reaches the client on the SSE stream (invocations and
session writes are server-internal). -/
inductive SSE
  | event (e : Event)
  | terminal (p : TerminalPayload)
  | done
deriving DecidableEq

/-- Project an execution onto the wire: keep emits, terminal payloads and
the sentinel; drop internal actions. -/
def sse : List Action → List SSE
  | [] => []
  | .emit e :: rest => .event e :: sse rest
  | .terminal p :: rest => .terminal p :: sse rest
  | .done :: rest => .done :: sse rest
  | .invoke _ :: rest => sse rest
  | .sessionPut _ _ :: rest => sse rest

/-- The capabilities invoked during an execution, in order. -/
def invoked : List Action → List AgentName
  | [] => []
  | .invoke a :: rest => a :: invoked rest
  | _ :: rest => invoked rest

/-- The terminal payloads of an execution, in order. -/
def terminalPayloads : List Action → List TerminalPayload
  | [] => []
  | .terminal p :: rest => p :: terminalPayloads rest
  | _ :: rest => terminalPayloads rest

/-- True of status events only. -/
def isEventSSE : SSE → Bool
  | .event _ => true
  | _ => false

/-- The stream ends with exactly one terminal payload immediately followed
by the sentinel, everything before them is a plain status event, and
nothing follows the sentinel. -/
def endsOk (s : List SSE) : Bool :=
  match s.reverse with
  | .done :: .terminal _ :: rest => rest.all isEventSSE
  | _ => false

/-- Input-guardrail gate of `Runner.run` on an agent carrying
`sensitive_input_guardrail`: a blocking verdict raises
`InputGuardrailTripwireTriggered` and the agent itself never runs
(src/guardrails.py lines 28-57; collaborator contract of the runner). -/
def guardedInputResult {α : Type} (blocked : Bool) (outcome : Except PyExc α) :
    Except PyExc α :=
  if blocked then .error .inputTripwire else outcome

/-- Invocations performed by a guardrail-gated `Runner.run`: the sensitive
checker always runs; the wrapped agent runs only when not blocked. -/
def guardedActions (blocked : Bool) (a : AgentName) : List Action :=
  if blocked then [.invoke .sensitiveChecker]
  else [.invoke .sensitiveChecker, .invoke a]

/-- Output-guardrail gate on the analysis agent
(`final_output_validation_guardrail`): a finished result that fails
validation raises `OutputGuardrailTripwireTriggered`. -/
def validatedFinalResult (raw : Except PyExc FinalOutput) : Except PyExc FinalOutput :=
  match raw with
  | .ok o => if final_output_validation_tripwire o then .error .outputTripwire else .ok o
  | .error e => .error e

/-- Output-guardrail gate on the casual-chat agent
(`friendly_message_validation_guardrail`); on success the pipeline reads
`final_output.message`. -/
def casualResult (raw : Except PyExc FriendlyMessage) : Except PyExc String :=
  match raw with
  | .ok m => if friendly_message_validation_tripwire m then .error .outputTripwire
             else .ok m.message
  | .error e => .error e

/-- Output-guardrail gate on the friendly agent. -/
def friendlyRunResult (raw : Except PyExc FriendlyMessage) :
    Except PyExc FriendlyMessage :=
  match raw with
  | .ok m => if friendly_message_validation_tripwire m then .error .outputTripwire
             else .ok m
  | .error e => .error e

/-- Generic fallback sentence used when the summary is empty
(src/processing_pipeline.py line 453). -/
def genericCompleteMsg : String :=
  "Your document analysis is complete. Please review the detailed report below for key findings and recommendations."

/-- Friendly-message resolution of the enhanced pipeline
(src/processing_pipeline.py lines 414-453): the friendly agent runs inside
try/except, any failure leaves the message empty, and an empty or
too-short (stripped length under 20) message is replaced by the
deterministic fallback built from the summary. -/
def resolveFriendly (raw : Except PyExc FriendlyMessage) (summary : String) : String :=
  let friendly_message :=
    match friendlyRunResult raw with
    | .ok m => m.message
    | .error _ => ""
  if friendly_message = "" ∨ (pyStrip friendly_message).length < 20 then
    if summary ≠ "" then "Analysis complete. " ++ pyTake summary 200 ++ "..."
    else genericCompleteMsg
  else friendly_message

/-- Environment of one demo-pipeline request: the request data plus the
nondeterministic outcomes of every collaborator call. -/
structure DemoEnv where
  user_text : String
  filename : String
  sensitive : SensitiveCheckOutput
  mainOutcome : Except PyExc AgentDecision
  analysisRaw : Except PyExc FinalOutput
  coerce : Except Unit AnalysisDict
  casualRaw : Except PyExc FriendlyMessage

/-- Fixed messages of the demo pipeline handlers (src/main.py lines
367-387). -/
def demoSensitiveMsg : String :=
  "This document contains sensitive information that cannot be processed for security reasons."

def demoValidationMsg : String :=
  "Analysis output validation failed. Please try again with a different document."

def demoErrorMsg : String :=
  "Sorry, something went wrong during analysis. Please try uploading your document again."

/-- Fixed no-document message of the demo pipeline (src/main.py lines
343-352). -/
def demoUndeterminedMsg : String :=
  "I couldn\x27t identify this as a legal document. \n\nPlease upload a clear legal document such as:\n- Contracts and agreements\n- NDAs and confidentiality agreements  \n- Terms of service\n- Privacy policies\n- Legal notices\n\nOr feel free to ask me any general legal questions!"

/-- Exception handlers of the demo pipeline (src/main.py lines 367-387):
each emits one failed status event and one terminal message payload. -/
def demoHandler : PyExc → List Action
  | .inputTripwire =>
    [.emit ⟨"Security Check", "failed", demoSensitiveMsg⟩,
     .terminal (.finalMessage demoSensitiveMsg)]
  | .outputTripwire =>
    [.emit ⟨"Validation Check", "failed", demoValidationMsg⟩,
     .terminal (.finalMessage demoValidationMsg)]
  | .other =>
    [.emit ⟨"System Error", "failed", demoErrorMsg⟩,
     .terminal (.finalMessage demoErrorMsg)]

/-- Status events the demo pipeline emits before classification
(src/main.py lines 194-218). -/
def demoIntro (user_text filename : String) : List Action :=
  [.emit ⟨"Document Processing", "completed",
     "Successfully received \x27" ++ filename ++ "\x27 (" ++
       toString user_text.length ++ " characters)"⟩,
   .emit ⟨"Text Extraction", "completed",
     "Extracted " ++ toString (pyWordCount user_text) ++ " words from document"⟩,
   .emit ⟨"Document Analysis", "processing",
     "Analyzing document type and structure..."⟩]

/-- Demo pipeline `run_demo_pipeline` (src/main.py lines 181-389; the
near-identical copy in src/processing_pipeline.py lines 45-251 differs
only in the indentation of the no-document message).  The execution is a
list of actions; any raised exception reaches the matching handler and
the sentinel is always appended last. -/
def demoPipeline (env : DemoEnv) : List Action :=
  let blocked := env.sensitive.contains_sensitive_info
  let intro := demoIntro env.user_text env.filename
  match guardedInputResult blocked env.mainOutcome with
  | .error e => intro ++ guardedActions blocked .mainAgent ++ demoHandler e ++ [.done]
  | .ok decision =>
    let step3 := intro ++ guardedActions blocked .mainAgent ++
      [.emit ⟨"Document Analysis", "completed",
         "Document type identified: " ++ pyTitle (decision.action.replace "_" " ")⟩]
    if decision.action = "analyze_document" then
      let step4 := step3 ++
        [.emit ⟨"AI Analysis", "processing", "Running comprehensive legal analysis..."⟩] ++
        guardedActions blocked .analysisAgent
      match guardedInputResult blocked (validatedFinalResult env.analysisRaw) with
      | .error e => step4 ++ demoHandler e ++ [.done]
      | .ok _ =>
        step4 ++
          [.emit ⟨"AI Analysis", "completed", "Legal analysis completed successfully"⟩,
           .emit ⟨"Report Generation", "processing", "Creating your personalized report..."⟩,
           .emit ⟨"Report Generation", "completed", "Your analysis report is ready!"⟩,
           .terminal (.structuredData (demoStructuredData env.coerce)),
           .done]
    else if decision.action = "casual_chat" then
      let step4 := step3 ++
        [.emit ⟨"Response Generation", "processing", "Generating response..."⟩,
         .invoke .casualChatAgent]
      match casualResult env.casualRaw with
      | .error e => step4 ++ demoHandler e ++ [.done]
      | .ok msg =>
        step4 ++
          [.emit ⟨"Response Generation", "completed", "Response ready!"⟩,
           .terminal (.finalMessage msg),
           .done]
    else
      step3 ++
        [.emit ⟨"Processing Complete", "completed",
           "Analysis finished - document type unclear"⟩,
         .terminal (.finalMessage demoUndeterminedMsg),
         .done]

/-- Environment of one enhanced-pipeline request.  `analysisDict` is the
result of the coercion-with-getattr-fallback block (src/processing_pipeline.py
lines 373-395), which is total in this pipeline variant. -/
structure EnhEnv where
  user_text : String
  filename : String
  session_id : String
  sensitive : SensitiveCheckOutput
  mainOutcome : Except PyExc AgentDecision
  analysisRaw : Except PyExc FinalOutput
  analysisDict : AnalysisDict
  friendlyRaw : Except PyExc FriendlyMessage
  casualRaw : Except PyExc FriendlyMessage

/-- Fixed messages of the enhanced pipeline handlers
(src/processing_pipeline.py lines 524-545). -/
def enhSensitiveMsg : String :=
  "Your document contains sensitive information that cannot be processed."

def enhErrorMsg : String :=
  "An error occurred during analysis. Please try again."

def enhUndeterminedMsg : String :=
  "I couldn\x27t determine if that was a legal document. Please provide a clear legal document or ask a general question."

/-- Exception handlers of the enhanced pipeline (src/processing_pipeline.py
lines 524-545): there is no dedicated output-tripwire handler, so an
output tripwire falls to the generic `except Exception` branch.  The
input-tripwire handler embeds `str(e.guardrail_result.output.output_info)`
in the `details` field of the terminal payload. -/
def enhHandler (e : PyExc) (sensitive : SensitiveCheckOutput) (session_id : String) :
    List Action :=
  match e with
  | .inputTripwire =>
    [.emit ⟨"Security Check Failed", "failed", enhSensitiveMsg⟩,
     .terminal (.finalResult
       (.error enhSensitiveMsg (some (strSensitiveCheckOutput sensitive)) session_id))]
  | _ =>
    [.emit ⟨"System Error", "failed", enhErrorMsg⟩,
     .terminal (.finalResult (.error enhErrorMsg none session_id))]

/-- Status events the enhanced pipeline emits before classification
(src/processing_pipeline.py lines 291-321). -/
def enhancedIntro (user_text filename : String) : List Action :=
  [.emit ⟨"Document Received", "completed",
     "Successfully processed your document \x27" ++ filename ++ "\x27"⟩,
   .emit ⟨"Text Extraction", "completed",
     "Extracted " ++ toString (pyWordCount user_text) ++ " words from " ++
       toString (estimatedPages user_text) ++ " pages"⟩,
   .emit ⟨"Document Classification", "processing",
     "Analyzing document type and structure..."⟩]

/-- Enhanced pipeline `run_enhanced_pipeline_streamed`
(src/processing_pipeline.py lines 254-546; the copy in src/main.py lines
392-687 is the same apart from caching `document_insights`). -/
def enhancedPipeline (env : EnhEnv) : List Action :=
  let blocked := env.sensitive.contains_sensitive_info
  let intro := .sessionPut env.session_id "processing" ::
    enhancedIntro env.user_text env.filename
  match guardedInputResult blocked env.mainOutcome with
  | .error e =>
    intro ++ guardedActions blocked .mainAgent ++
      enhHandler e env.sensitive env.session_id ++ [.done]
  | .ok decision =>
    let step3 := intro ++ guardedActions blocked .mainAgent ++
      [.emit ⟨"Document Classification", "completed",
         "Identified as: " ++ pyTitle (decision.action.replace "_" " ")⟩]
    if decision.action = "analyze_document" then
      let step4 := step3 ++
        [.emit ⟨"AI Analysis", "processing",
           "Our AI legal experts are analyzing your document..."⟩] ++
        guardedActions blocked .analysisAgent
      match guardedInputResult blocked (validatedFinalResult env.analysisRaw) with
      | .error e => step4 ++ enhHandler e env.sensitive env.session_id ++ [.done]
      | .ok _ =>
        let d := env.analysisDict
        let normalized_risks := d.risks.map (fun r => normalizeRiskEnhanced (coerceRisk r))
        let friendly_message := resolveFriendly env.friendlyRaw d.summary
        let fr := FinalResult.legal env.filename d.summary normalized_risks
          d.verdict d.disclaimer friendly_message env.session_id
        step4 ++
          [.emit ⟨"AI Analysis", "completed", "Document analysis completed successfully"⟩,
           .emit ⟨"Generating Report", "processing",
             "Creating your personalized legal analysis report..."⟩,
           .invoke .friendlyAgent,
           .sessionPut env.session_id "completed",
           .emit ⟨"Report Ready", "completed", "Your legal analysis report is ready!"⟩,
           .terminal (.finalResult fr),
           .done]
    else if decision.action = "casual_chat" then
      let step4 := step3 ++
        [.emit ⟨"Processing Query", "processing", "Understanding your question..."⟩,
         .invoke .casualChatAgent]
      match casualResult env.casualRaw with
      | .error e => step4 ++ enhHandler e env.sensitive env.session_id ++ [.done]
      | .ok msg =>
        step4 ++
          [.emit ⟨"Response Ready", "completed", "Generated response to your question"⟩,
           .terminal (.finalResult (.casual msg env.session_id)),
           .done]
    else
      step3 ++
        [.terminal (.finalResult (.error enhUndeterminedMsg none env.session_id)),
         .done]

/-- Index of the last occurrence of a character, if any. -/
def lastIdxAux (cs : List Char) (c : Char) (i : Nat) (acc : Option Nat) : Option Nat :=
  match cs with
  | [] => acc
  | x :: xs => lastIdxAux xs c (i + 1) (if x = c then some i else acc)

def lastIdx (cs : List Char) (c : Char) : Option Nat :=
  lastIdxAux cs c 0 none

/-- Model of `os.path.splitext(p)[1]` (posix): the extension starts at the
last dot of the basename, unless every character of the basename before
that dot is itself a dot. -/
def splitextExt (p : String) : String :=
  let cs := p.toList
  let base :=
    match lastIdx cs (Char.ofNat 47) with
    | none => cs
    | some i => cs.drop (i + 1)
  match lastIdx base (Char.ofNat 46) with
  | none => ""
  | some d => if (base.take d).all (fun ch => ch = Char.ofNat 46) then ""
              else String.mk (base.drop d)

/-- The supported upload extensions (src/main.py lines 76-79): union of the
text, document, pdf and image extension sets. -/
def allSupportedExts : List String :=
  [".txt", ".docx", ".pdf", ".png", ".jpg", ".jpeg", ".webp", ".tiff"]

/-- Responses of the pre-pipeline validation of `POST /analyze`: an HTTP
error with a JSON `{detail}`, or the start of the streaming response. -/
inductive AnalyzeResponse
  | httpError (status : Nat) (detail : String)
  | streaming (user_text filename : String)
deriving DecidableEq

/-- Detail string of the unsupported-extension rejection (src/main.py
lines 794-798); the set-iteration order of the joined list is fixed here. -/
def unsupportedDetail (file_ext : String) : String :=
  "Unsupported file type: " ++ file_ext ++ ". Supported types: " ++
    String.intercalate ", " allSupportedExts

def emptyTextDetail : String :=
  "Could not extract meaningful text from the file. Please ensure the document contains readable text."

/-- Pre-pipeline validation of `POST /analyze` (src/main.py lines 777-836).
`content_size` is `len(file_content)`; `extracted` is the result of
`load_text_from_path` on the temporary copy; `processing_exc` is `some msg`
when the temp-file handling or extraction raises a non-HTTP exception
with text `msg`. -/
def analyze_document (filename : String) (content_size : Nat)
    (extracted : Option String) (processing_exc : Option String) : AnalyzeResponse :=
  if filename = "" then .httpError 400 "No filename provided"
  else
    let file_ext := pyLower (splitextExt filename)
    if ¬ (file_ext ∈ allSupportedExts) then .httpError 400 (unsupportedDetail file_ext)
    else if 10 * 1024 * 1024 < content_size then
      .httpError 413 "File too large. Maximum size: 10MB"
    else
      match processing_exc with
      | some msg => .httpError 500 ("Error processing file: " ++ msg)
      | none =>
        match extracted with
        | none => .httpError 400 emptyTextDetail
        | some t =>
          if (pyStrip t).length < 10 then .httpError 400 emptyTextDetail
          else .streaming t filename

/-! Helper lemmas shared by several claim proofs. -/

/-- Projection to the wire distributes over trace concatenation. -/
theorem sse_append (a b : List Action) : sse (a ++ b) = sse a ++ sse b := by
  induction a with
  | nil => rfl
  | cons x t ih => cases x <;> simp [sse, ih]

/-- A nonempty trimmed length forces a nonempty string. -/
theorem ne_empty_of_trim_length {s : String} {n : ℕ} (h : n < (pyStrip s).length) :
    s ≠ "" := by
  intro hs
  subst hs
  have h0 : (pyStrip "").length = 0 := rfl
  omega

/-! Claim theorems. -/

/-- C10: `estimate_processing_time` is monotone in the text length, its
value is always one of 15, 30, 45, 60 seconds, and each of the four
values is attained. -/
theorem C10_estimate_monotone_and_range :
    (∀ a b : ℕ, a ≤ b → estimate_processing_time a ≤ estimate_processing_time b) ∧
    (∀ n : ℕ, estimate_processing_time n = 15 ∨ estimate_processing_time n = 30 ∨
      estimate_processing_time n = 45 ∨ estimate_processing_time n = 60) ∧
    estimate_processing_time 0 = 15 ∧ estimate_processing_time 1000 = 30 ∧
    estimate_processing_time 5000 = 45 ∧ estimate_processing_time 10000 = 60 := by
  refine ⟨?_, ?_, by decide, by decide, by decide, by decide⟩
  · intro a b h
    unfold estimate_processing_time
    split_ifs <;> omega
  · intro n
    unfold estimate_processing_time
    split_ifs <;> simp

/-- Witness for C10 at a concrete pair of lengths. -/
theorem C10_witness :
    (3 : ℕ) ≤ 5 ∧ estimate_processing_time 3 ≤ estimate_processing_time 5 :=
  ⟨by decide, C10_estimate_monotone_and_range.1 3 5 (by decide)⟩

/-- C9: `GET /session/{id}` is a pure read: two consecutive lookups return
the same answer, the store is unchanged by each, and an absent id yields
404 both times. -/
theorem C9_get_session_idempotent :
    ∀ (store : SessionStore) (sid : String),
      (get_session_status store sid).1 =
        (get_session_status (get_session_status store sid).2 sid).1 ∧
      (get_session_status store sid).2 = store ∧
      (get_session_status (get_session_status store sid).2 sid).2 = store ∧
      (store.lookup sid = none →
        (get_session_status store sid).1 = .error 404 ∧
        (get_session_status (get_session_status store sid).2 sid).1 = .error 404) := by
  intro store sid
  unfold get_session_status
  cases h : store.lookup sid <;> simp [h]

/-- Witness for C9 at a concrete store and an absent id. -/
theorem C9_witness :
    (([("a", ⟨"processing", "a.txt", "t0", [], none⟩)] : SessionStore).lookup "b"
        = none) ∧
      (get_session_status [("a", ⟨"processing", "a.txt", "t0", [], none⟩)] "b").1
        = .error 404 :=
  ⟨by decide,
    ((C9_get_session_idempotent [("a", ⟨"processing", "a.txt", "t0", [], none⟩)]
      "b").2.2.2 (by decide)).1⟩

/-- C4 counterexample: a risk entry with an absent level field is
normalized to the literal level string "unknown", not to "low"; no
mapping of "unknown" to "low" exists in the code. -/
theorem C4_counterexample :
    (normalizeRiskEnhanced (coerceRisk (some blankRiskEntry))).level = "unknown" ∧
    (normalizeRiskEnhanced (coerceRisk (some blankRiskEntry))).level ≠ "low" := by
  decide

/-- C4 amended: the risk-normalization steps default `level` to the
literal lowercased string "unknown" when the field is absent (there is no
mapping to "low"), lowercase a present level, and default `category`,
`recommendation`, `clause_reference` and `description` to the empty
string when missing. -/
theorem C4_amended_defaults :
    ∀ rd : RiskEntry,
      (rd.level = none → (normalizeRiskEnhanced rd).level = "unknown" ∧
        (normalizeRiskDemo rd).level = "unknown") ∧
      (∀ s, rd.level = some s → (normalizeRiskEnhanced rd).level = pyLower s) ∧
      (rd.category = none → (normalizeRiskEnhanced rd).category = "") ∧
      (rd.recommendation = none → (normalizeRiskEnhanced rd).recommendation = "") ∧
      (rd.clause_reference = none → (normalizeRiskEnhanced rd).clause_reference = "") ∧
      (rd.description = none → (normalizeRiskEnhanced rd).description = "") := by
  intro rd
  refine ⟨?_, ?_, ?_, ?_, ?_, ?_⟩
  · intro h
    simp [normalizeRiskEnhanced, normalizeRiskDemo, h]
    decide
  · intro s h
    simp [normalizeRiskEnhanced, h]
  · intro h
    simp [normalizeRiskEnhanced, h]
  · intro h
    simp [normalizeRiskEnhanced, h]
  · intro h
    simp [normalizeRiskEnhanced, h]
  · intro h
    simp [normalizeRiskEnhanced, h]

/-- Witness for C4 at the blank risk entry. -/
theorem C4_witness :
    blankRiskEntry.level = none ∧
      (normalizeRiskEnhanced blankRiskEntry).level = "unknown" :=
  ⟨rfl, ((C4_amended_defaults blankRiskEntry).1 rfl).1⟩

/-- Concrete environment for the C3 witness: the raw analysis result is
valid, but the dict coercion raises. -/
def c3Out : FinalOutput :=
  { summary := "This is a long enough summary."
    risks := []
    verdict := "Looks fine overall"
    disclaimer := "This analysis is for informational purposes only and does not constitute legal advice."
    confidence_score := 4/5
    processed_at := "t0" }

def c3Dec : AgentDecision :=
  { action := "analyze_document", reasoning := "legal text", confidence_score := 4/5 }

def c3Env : DemoEnv :=
  { user_text := "hello world", filename := "a.txt"
    sensitive := ⟨false, "fine", []⟩
    mainOutcome := .ok c3Dec
    analysisRaw := .ok c3Out
    coerce := .error ()
    casualRaw := .error .other }

/-- C3: the demo-pipeline conversion of the raw analysis result is total:
its risk count always matches the risk list, the coercion-failure case
yields exactly the fixed degraded-mode record (generic summary, empty
risks, manual-review verdict, standard disclaimer, confidence 1/2), and
on the analyze path the pipeline emits the structured terminal payload
for every coercion outcome, so the error never reaches the caller. -/
theorem C3_normalization_total :
    (∀ c : Except Unit AnalysisDict,
      (demoStructuredData c).risk_count = (demoStructuredData c).risks.length) ∧
    demoStructuredData (.error ()) = degradedStructuredData ∧
    degradedStructuredData.summary =
      "Document analysis completed but some details could not be extracted." ∧
    degradedStructuredData.risks = [] ∧
    degradedStructuredData.verdict =
      "Please review the document manually for potential issues." ∧
    degradedStructuredData.disclaimer =
      "This analysis is for informational purposes only and does not constitute legal advice." ∧
    degradedStructuredData.confidence_score = 1/2 ∧
    (∀ (env : DemoEnv) (dec : AgentDecision) (o : FinalOutput),
      env.sensitive.contains_sensitive_info = false →
      env.mainOutcome = .ok dec →
      dec.action = "analyze_document" →
      validatedFinalResult env.analysisRaw = .ok o →
      Action.terminal (.structuredData (demoStructuredData env.coerce))
        ∈ demoPipeline env) := by
  refine ⟨?_, rfl, rfl, rfl, rfl, rfl, rfl, ?_⟩
  · intro c
    cases c <;> rfl
  · intro env dec o h1 h2 h3 h4
    simp [demoPipeline, guardedInputResult, h1, h2, h3, h4]

/-- Witness for C3 at a concrete environment whose coercion fails. -/
theorem C3_witness :
    c3Env.sensitive.contains_sensitive_info = false ∧
      Action.terminal (.structuredData (demoStructuredData c3Env.coerce))
        ∈ demoPipeline c3Env :=
  ⟨rfl, C3_normalization_total.2.2.2.2.2.2.2 c3Env c3Dec c3Out rfl rfl rfl rfl⟩

/-- C6: the final-output guardrail passes (tripwire false) exactly when
the stripped summary exceeds 10 characters, the risks field is a list
(always true of the typed field), the stripped verdict exceeds 5
characters and the stripped disclaimer exceeds 10 characters; the
friendly-message guardrail passes exactly when the stripped message
exceeds 5 characters, the message is shorter than 2000 characters, and no
refusal phrase occurs in the lowercased message. -/
theorem C6_guardrail_validation_iff :
    (∀ o : FinalOutput,
      final_output_validation_tripwire o = false ↔
        (10 < (pyStrip o.summary).length ∧ 5 < (pyStrip o.verdict).length ∧
         10 < (pyStrip o.disclaimer).length)) ∧
    (∀ m : FriendlyMessage,
      friendly_message_validation_tripwire m = false ↔
        (5 < (pyStrip m.message).length ∧ m.message.length < 2000 ∧
         ∀ w ∈ refusalPhrases, containsSubstr (pyLower m.message) w = false)) := by
  constructor
  · intro o
    have hs := @ne_empty_of_trim_length o.summary 10
    have hv := @ne_empty_of_trim_length o.verdict 5
    have hd := @ne_empty_of_trim_length o.disclaimer 10
    simp only [final_output_validation_tripwire, Bool.true_and, Bool.and_true,
      Bool.not_eq_false', Bool.and_eq_true, bne_iff_ne, decide_eq_true_eq]
    constructor
    · rintro ⟨⟨⟨_, h1⟩, _, h2⟩, _, h3⟩
      exact ⟨h1, h2, h3⟩
    · rintro ⟨h1, h2, h3⟩
      exact ⟨⟨⟨hs h1, h1⟩, hv h2, h2⟩, hd h3, h3⟩
  · intro m
    have hm := @ne_empty_of_trim_length m.message 5
    simp only [friendly_message_validation_tripwire, Bool.not_eq_false',
      Bool.and_eq_true, bne_iff_ne, decide_eq_true_eq, Bool.not_eq_true',
      List.any_eq_false]
    constructor
    · rintro ⟨⟨⟨_, h1⟩, h2⟩, h3⟩
      exact ⟨h1, h2, fun w hw => by simpa using h3 w hw⟩
    · rintro ⟨h1, h2, h3⟩
      exact ⟨⟨⟨hm h1, h1⟩, h2⟩, fun w hw => by simpa using h3 w hw⟩

/-- Witness for C6 at concrete valid outputs. -/
theorem C6_witness :
    final_output_validation_tripwire
      ⟨"This is a long enough summary.", [], "Looks fine overall",
       "This analysis is for informational purposes only and does not constitute legal advice.",
       4/5, "t0"⟩ = false ∧
      friendly_message_validation_tripwire
        ⟨"Here is a decent and friendly analysis message for you.", "friendly"⟩
        = false :=
  ⟨(C6_guardrail_validation_iff.1 _).mpr (by decide),
   (C6_guardrail_validation_iff.2 _).mpr (by decide)⟩

/-- C7: pre-pipeline validation of `POST /analyze`: empty filename or
unsupported extension give 400, oversize gives 413, a processing
exception gives 500, missing or too-short extracted text gives 400, and
otherwise (including a file of exactly 10MB) the streaming response
begins. -/
theorem C7_analyze_validation :
    ∀ (fn : String) (sz : ℕ) (ext : Option String) (exc : Option String),
      (fn = "" → analyze_document fn sz ext exc =
        .httpError 400 "No filename provided") ∧
      (fn ≠ "" → pyLower (splitextExt fn) ∉ allSupportedExts →
        analyze_document fn sz ext exc =
          .httpError 400 (unsupportedDetail (pyLower (splitextExt fn)))) ∧
      (pyLower (splitextExt fn) ∈ allSupportedExts → 10 * 1024 * 1024 < sz →
        analyze_document fn sz ext exc =
          .httpError 413 "File too large. Maximum size: 10MB") ∧
      (pyLower (splitextExt fn) ∈ allSupportedExts → sz ≤ 10 * 1024 * 1024 →
        ∀ m, exc = some m →
          analyze_document fn sz ext exc =
            .httpError 500 ("Error processing file: " ++ m)) ∧
      (pyLower (splitextExt fn) ∈ allSupportedExts → sz ≤ 10 * 1024 * 1024 →
        exc = none → ext = none →
          analyze_document fn sz ext exc = .httpError 400 emptyTextDetail) ∧
      (pyLower (splitextExt fn) ∈ allSupportedExts → sz ≤ 10 * 1024 * 1024 →
        exc = none → ∀ t, ext = some t → (pyStrip t).length < 10 →
          analyze_document fn sz ext exc = .httpError 400 emptyTextDetail) ∧
      (pyLower (splitextExt fn) ∈ allSupportedExts → sz ≤ 10 * 1024 * 1024 →
        exc = none → ∀ t, ext = some t → 10 ≤ (pyStrip t).length →
          analyze_document fn sz ext exc = .streaming t fn) := by
  intro fn sz ext exc
  have hfn : pyLower (splitextExt fn) ∈ allSupportedExts → fn ≠ "" := by
    intro h hf
    subst hf
    exact absurd h (by decide)
  refine ⟨?_, ?_, ?_, ?_, ?_, ?_, ?_⟩
  · intro h
    simp [analyze_document, h]
  · intro h1 h2
    simp [analyze_document, h1, h2]
  · intro h1 h2
    simp [analyze_document, hfn h1, h1, h2]
  · intro h1 h2 m h3
    simp [analyze_document, hfn h1, h1, h3]
    omega
  · intro h1 h2 h3 h4
    simp [analyze_document, hfn h1, h1, h3, h4]
    omega
  · intro h1 h2 h3 t h4 h5
    simp [analyze_document, hfn h1, h1, h3, h4, h5]
    omega
  · intro h1 h2 h3 t h4 h5
    simp [analyze_document, hfn h1, h1, h3, h4]
    rw [if_neg (by omega), if_neg (by omega)]

/-- Witness for C7: a supported extension, a file of exactly 10MB and
usable text stream; an unsupported extension is rejected with 400. -/
theorem C7_witness :
    pyLower (splitextExt "contract.pdf") ∈ allSupportedExts ∧
      analyze_document "contract.pdf" (10 * 1024 * 1024)
        (some "This is a fine long text") none =
        .streaming "This is a fine long text" "contract.pdf" ∧
      analyze_document "contract.exe" 5 (some "This is a fine long text") none =
        .httpError 400 (unsupportedDetail ".exe") := by
  refine ⟨by decide, ?_, ?_⟩
  · exact (C7_analyze_validation "contract.pdf" (10 * 1024 * 1024)
      (some "This is a fine long text") none).2.2.2.2.2.2 (by decide) (by decide)
      rfl "This is a fine long text" rfl (by decide)
  · have h := (C7_analyze_validation "contract.exe" 5
      (some "This is a fine long text") none).2.1 (by decide) (by decide)
    simpa using h

/-- Concrete environment for the C8 witness: the analyze path succeeds
but the friendly capability fails. -/
def c8Out : FinalOutput :=
  { summary := "This is a long enough summary."
    risks := []
    verdict := "Looks fine overall"
    disclaimer := "This analysis is for informational purposes only and does not constitute legal advice."
    confidence_score := 4/5
    processed_at := "t0" }

def c8Dec : AgentDecision :=
  { action := "analyze_document", reasoning := "legal text", confidence_score := 4/5 }

def c8Env : EnhEnv :=
  { user_text := "hello world", filename := "a.txt", session_id := "sess-8"
    sensitive := ⟨false, "fine", []⟩
    mainOutcome := .ok c8Dec
    analysisRaw := .ok c8Out
    analysisDict := ⟨"My summary", [], "ok verdict", "disc", 4/5⟩
    friendlyRaw := .error .other
    casualRaw := .error .other }

/-- C8: the resolved friendly message is never empty; when the friendly
capability fails or yields a message whose stripped length is under 20,
the deterministic fallback (first 200 summary characters, or the generic
analysis-complete sentence for an empty summary) is substituted; and on
the enhanced analyze path the terminal `final_result` carries exactly
this resolved message, so a friendly failure never fails the request. -/
theorem C8_friendly_fallback :
    (∀ (raw : Except PyExc FriendlyMessage) (summary : String),
      resolveFriendly raw summary ≠ "") ∧
    (∀ (raw : Except PyExc FriendlyMessage) (summary : String),
      (match friendlyRunResult raw with
       | .ok m => (pyStrip m.message).length < 20
       | .error _ => True) →
      resolveFriendly raw summary =
        if summary ≠ "" then "Analysis complete. " ++ pyTake summary 200 ++ "..."
        else genericCompleteMsg) ∧
    (∀ (env : EnhEnv) (dec : AgentDecision) (o : FinalOutput),
      env.sensitive.contains_sensitive_info = false →
      env.mainOutcome = .ok dec →
      dec.action = "analyze_document" →
      validatedFinalResult env.analysisRaw = .ok o →
      Action.terminal (.finalResult (.legal env.filename env.analysisDict.summary
        (env.analysisDict.risks.map (fun r => normalizeRiskEnhanced (coerceRisk r)))
        env.analysisDict.verdict env.analysisDict.disclaimer
        (resolveFriendly env.friendlyRaw env.analysisDict.summary) env.session_id))
        ∈ enhancedPipeline env) := by
  refine ⟨?_, ?_, ?_⟩
  · intro raw summary
    simp only [resolveFriendly]
    split_ifs with h1 h2
    · intro hc
      have hl := congrArg String.length hc
      rw [String.length_append, String.length_append] at hl
      have h19 : ("Analysis complete. " : String).length = 19 := by decide
      have h0 : ("" : String).length = 0 := by decide
      have h3 : ("..." : String).length = 3 := by decide
      omega
    · decide
    · push_neg at h1
      exact h1.1
  · intro raw summary h
    cases hfr : friendlyRunResult raw with
    | error e =>
      simp only [resolveFriendly]
      rw [hfr]
      simp
    | ok m =>
      rw [hfr] at h
      simp only [resolveFriendly]
      rw [hfr]
      rw [if_pos (Or.inr h)]
  · intro env dec o h1 h2 h3 h4
    simp [enhancedPipeline, guardedInputResult, h1, h2, h3, h4]

/-- Witness for C8 at a failing friendly capability. -/
theorem C8_witness :
    resolveFriendly (Except.error PyExc.other) "Sum" ≠ "" ∧
      resolveFriendly (Except.error PyExc.other) "Sum" =
        "Analysis complete. " ++ pyTake "Sum" 200 ++ "..." ∧
      c8Env.sensitive.contains_sensitive_info = false ∧
      Action.terminal (.finalResult (.legal c8Env.filename
        c8Env.analysisDict.summary [] c8Env.analysisDict.verdict
        c8Env.analysisDict.disclaimer
        (resolveFriendly c8Env.friendlyRaw c8Env.analysisDict.summary)
        c8Env.session_id)) ∈ enhancedPipeline c8Env := by
  refine ⟨C8_friendly_fallback.1 (Except.error PyExc.other) "Sum", ?_, rfl, ?_⟩
  · have h := C8_friendly_fallback.2.1 (Except.error PyExc.other) "Sum" trivial
    rw [h, if_pos (by decide)]
  · exact C8_friendly_fallback.2.2 c8Env c8Dec c8Out rfl rfl rfl rfl

/-- C2: on every path of both pipelines (success, input tripwire, output
tripwire, undetermined routing, any other exception) the stream consists
of status events followed by exactly one terminal payload and then the
sentinel, with nothing after the sentinel. -/
theorem C2_stream_termination :
    (∀ env : DemoEnv, endsOk (sse (demoPipeline env)) = true) ∧
    (∀ env : EnhEnv, endsOk (sse (enhancedPipeline env)) = true) := by
  constructor
  · intro env
    obtain ⟨ut, fn, ⟨csi, reas, fct⟩, mo, ar, co, cu⟩ := env
    cases csi with
    | true => rfl
    | false =>
      cases mo with
      | error e => cases e <;> rfl
      | ok dec =>
        obtain ⟨act, dreas, dconf⟩ := dec
        by_cases h1 : act = "analyze_document"
        · subst h1
          cases ar with
          | error e => cases e <;> rfl
          | ok o =>
            cases hv : final_output_validation_tripwire o <;>
              simp [demoPipeline, guardedInputResult, validatedFinalResult,
                guardedActions, demoIntro, demoHandler, hv, sse, endsOk,
                isEventSSE]
        · by_cases h2 : act = "casual_chat"
          · subst h2
            cases cu with
            | error e =>
              cases e <;>
                simp [demoPipeline, guardedInputResult, casualResult,
                  guardedActions, demoIntro, demoHandler, h1, sse, endsOk,
                  isEventSSE]
            | ok m =>
              cases hv : friendly_message_validation_tripwire m <;>
                simp [demoPipeline, guardedInputResult, casualResult,
                  guardedActions, demoIntro, demoHandler, h1, hv, sse, endsOk,
                  isEventSSE]
          · simp [demoPipeline, guardedInputResult, guardedActions, demoIntro,
              h1, h2, sse, endsOk, isEventSSE]
  · intro env
    obtain ⟨ut, fn, sid, ⟨csi, reas, fct⟩, mo, ar, ad, fr, cu⟩ := env
    cases csi with
    | true => rfl
    | false =>
      cases mo with
      | error e => cases e <;> rfl
      | ok dec =>
        obtain ⟨act, dreas, dconf⟩ := dec
        by_cases h1 : act = "analyze_document"
        · subst h1
          cases ar with
          | error e => cases e <;> rfl
          | ok o =>
            cases hv : final_output_validation_tripwire o <;>
              simp [enhancedPipeline, guardedInputResult, validatedFinalResult,
                guardedActions, enhancedIntro, enhHandler, hv, sse, endsOk,
                isEventSSE]
        · by_cases h2 : act = "casual_chat"
          · subst h2
            cases cu with
            | error e =>
              cases e <;>
                simp [enhancedPipeline, guardedInputResult, casualResult,
                  guardedActions, enhancedIntro, enhHandler, h1, sse, endsOk,
                  isEventSSE]
            | ok m =>
              cases hv : friendly_message_validation_tripwire m <;>
                simp [enhancedPipeline, guardedInputResult, casualResult,
                  guardedActions, enhancedIntro, enhHandler, h1, hv, sse,
                  endsOk, isEventSSE]
          · simp [enhancedPipeline, guardedInputResult, guardedActions,
              enhancedIntro, h1, h2, sse, endsOk, isEventSSE]

/-- C1: when the input guardrail judges the text unsafe, the classifier,
the analysis agent, the casual-chat agent and the friendly agent never
run in either pipeline (the only capability invoked is the sensitive
checker itself), and after the tripwire the stream carries only the
failed status event, the failure terminal payload and the sentinel. -/
theorem C1_input_tripwire_blocks_all :
    ∀ (d : DemoEnv) (e : EnhEnv),
      d.sensitive.contains_sensitive_info = true →
      e.sensitive.contains_sensitive_info = true →
      (demoPipeline d =
        demoIntro d.user_text d.filename ++
          [.invoke .sensitiveChecker,
           .emit ⟨"Security Check", "failed", demoSensitiveMsg⟩,
           .terminal (.finalMessage demoSensitiveMsg), .done] ∧
        invoked (demoPipeline d) = [.sensitiveChecker]) ∧
      (enhancedPipeline e =
        Action.sessionPut e.session_id "processing" ::
          enhancedIntro e.user_text e.filename ++
          [.invoke .sensitiveChecker,
           .emit ⟨"Security Check Failed", "failed", enhSensitiveMsg⟩,
           .terminal (.finalResult (.error enhSensitiveMsg
             (some (strSensitiveCheckOutput e.sensitive)) e.session_id)),
           .done] ∧
        invoked (enhancedPipeline e) = [.sensitiveChecker]) := by
  intro d e hd he
  have htd : demoPipeline d =
      demoIntro d.user_text d.filename ++
        [.invoke .sensitiveChecker,
         .emit ⟨"Security Check", "failed", demoSensitiveMsg⟩,
         .terminal (.finalMessage demoSensitiveMsg), .done] := by
    simp [demoPipeline, guardedInputResult, guardedActions, demoHandler, hd]
  have hte : enhancedPipeline e =
      Action.sessionPut e.session_id "processing" ::
        enhancedIntro e.user_text e.filename ++
        [.invoke .sensitiveChecker,
         .emit ⟨"Security Check Failed", "failed", enhSensitiveMsg⟩,
         .terminal (.finalResult (.error enhSensitiveMsg
           (some (strSensitiveCheckOutput e.sensitive)) e.session_id)),
         .done] := by
    simp [enhancedPipeline, guardedInputResult, guardedActions, enhHandler, he]
  refine ⟨⟨htd, ?_⟩, hte, ?_⟩
  · rw [htd]
    simp [demoIntro, invoked]
  · rw [hte]
    simp [enhancedIntro, invoked]

/-- Concrete blocked environments for the C1 witness. -/
def c1DemoEnv : DemoEnv :=
  { user_text := "my ssn is 123-45-6789", filename := "a.txt"
    sensitive := ⟨true, "SSN present", ["pii"]⟩
    mainOutcome := .ok ⟨"analyze_document", "r", 4/5⟩
    analysisRaw := .error .other
    coerce := .error ()
    casualRaw := .error .other }

def c1EnhEnv : EnhEnv :=
  { user_text := "my ssn is 123-45-6789", filename := "a.txt", session_id := "s1"
    sensitive := ⟨true, "SSN present", ["pii"]⟩
    mainOutcome := .ok ⟨"analyze_document", "r", 4/5⟩
    analysisRaw := .error .other
    analysisDict := ⟨"", [], "", "", 4/5⟩
    friendlyRaw := .error .other
    casualRaw := .error .other }

/-- Witness for C1 at concrete blocked environments. -/
theorem C1_witness :
    c1DemoEnv.sensitive.contains_sensitive_info = true ∧
      c1EnhEnv.sensitive.contains_sensitive_info = true ∧
      invoked (demoPipeline c1DemoEnv) = [AgentName.sensitiveChecker] ∧
      invoked (enhancedPipeline c1EnhEnv) = [AgentName.sensitiveChecker] :=
  ⟨rfl, rfl,
    ((C1_input_tripwire_blocks_all c1DemoEnv c1EnhEnv rfl rfl).1).2,
    ((C1_input_tripwire_blocks_all c1DemoEnv c1EnhEnv rfl rfl).2).2⟩

/-- Concrete blocked demo environment for the C5 witness. -/
def c5DemoEnv : DemoEnv :=
  { user_text := "doc text here", filename := "a.txt"
    sensitive := ⟨true, "Detected SSN 123-45-6789", []⟩
    mainOutcome := .error .other
    analysisRaw := .error .other
    coerce := .error ()
    casualRaw := .error .other }

/-- Two concrete blocked environments for C5 that differ only in the
guardrail reasoning text. -/
def c5Env1 : EnhEnv :=
  { user_text := "doc text here", filename := "a.txt", session_id := "sess-1"
    sensitive := ⟨true, "Detected SSN 123-45-6789", []⟩
    mainOutcome := .error .other
    analysisRaw := .error .other
    analysisDict := ⟨"", [], "", "", 4/5⟩
    friendlyRaw := .error .other
    casualRaw := .error .other }

def c5Env2 : EnhEnv :=
  { user_text := "doc text here", filename := "a.txt", session_id := "sess-1"
    sensitive := ⟨true, "Credit card number present", []⟩
    mainOutcome := .error .other
    analysisRaw := .error .other
    analysisDict := ⟨"", [], "", "", 4/5⟩
    friendlyRaw := .error .other
    casualRaw := .error .other }

/-- C5 counterexample: the enhanced pipeline terminal payload after an
input tripwire is not the fixed generic message alone: its `details`
field carries the stringified guardrail output including the raw
reasoning, so the payload varies with the reasoning text. -/
theorem C5_counterexample :
    terminalPayloads (enhancedPipeline c5Env1) =
      [.finalResult (.error enhSensitiveMsg
        (some ("contains_sensitive_info=True reasoning=\x27Detected SSN 123-45-6789\x27 flagged_content_types=[]"))
        "sess-1")] ∧
      enhancedPipeline c5Env1 ≠ enhancedPipeline c5Env2 := by
  constructor
  · rfl
  · decide

/-- C5 amended: on an input tripwire the demo pipeline sends only the
fixed generic message, while the enhanced pipeline puts the fixed generic
message in the `message` field but additionally embeds the stringified
guardrail output (raw reasoning and flagged categories) in the `details`
field of the terminal payload. -/
theorem C5_amended_tripwire_payloads :
    ∀ (d : DemoEnv) (e : EnhEnv),
      d.sensitive.contains_sensitive_info = true →
      e.sensitive.contains_sensitive_info = true →
      terminalPayloads (demoPipeline d) = [.finalMessage demoSensitiveMsg] ∧
      terminalPayloads (enhancedPipeline e) =
        [.finalResult (.error enhSensitiveMsg
          (some (strSensitiveCheckOutput e.sensitive)) e.session_id)] := by
  intro d e hd he
  constructor
  · simp [demoPipeline, guardedInputResult, guardedActions, demoHandler, hd,
      demoIntro, terminalPayloads]
  · simp [enhancedPipeline, guardedInputResult, guardedActions, enhHandler, he,
      enhancedIntro, terminalPayloads]

/-- Witness for the C5 amended claim at a concrete blocked environment. -/
theorem C5_witness :
    c5Env1.sensitive.contains_sensitive_info = true ∧
      terminalPayloads (enhancedPipeline c5Env1) =
        [.finalResult (.error enhSensitiveMsg
          (some (strSensitiveCheckOutput c5Env1.sensitive)) c5Env1.session_id)] :=
  ⟨rfl, (C5_amended_tripwire_payloads c5DemoEnv c5Env1 rfl rfl).2⟩

end LegalyzeAI
